import Mathlib

/-!
Shallow embedding of pkg/controller/listers.go (haproxy-ingress change
detection core).

The Go file wires seven informers to event-handler closures that classify
raw add/update/delete events and forward semantic signals to a
ListerEvents sink, record audit events via an EventRecorder, and log
diagnostics.  Each handler closure is embedded as a pure Lean function
from its arguments to the ordered list of side effects it performs
(sink signals, audit records, error logs), in execution order.

Kubernetes objects are modelled with the fields the handlers inspect
(namespace, name, and the compared payload); all remaining fields are
folded into an opaque component so that deep equality of whole objects
remains expressible.
-/

/-- Ingress object (extensions/v1beta1).  The handlers read Namespace and
Name and pass the whole object to IsValidClass and reflect.DeepEqual;
every other field is folded into the opaque component rest. -/
structure Ingress where
  ns : String
  name : String
  rest : Nat
deriving DecidableEq, Repr

/-- Endpoints object (core/v1).  The update handler compares only the
Subsets slices with reflect.DeepEqual; each subset is opaque here.
Metadata (labels/annotations and all other fields) is folded into meta. -/
structure Endpoints where
  ns : String
  name : String
  subsets : List Nat
  meta : Nat
deriving DecidableEq, Repr

/-- Secret object (core/v1): handlers read Namespace and Name and compare
whole objects with reflect.DeepEqual. -/
structure Secret where
  ns : String
  name : String
  rest : Nat
deriving DecidableEq, Repr

/-- ConfigMap object (core/v1): handlers compare whole objects and pass
the object itself to the sink. -/
structure ConfigMap where
  ns : String
  name : String
  data : Nat
deriving DecidableEq, Repr

/-- Pod object (core/v1).  ObjectMeta.DeletionTimestamp has Go type
(pointer to metav1.Time); the update handler compares the two pointers
with the Go operator !=, which for pointer operands compares identity,
not the pointed-to instants.  The pointer is therefore modelled as an
optional allocation address (Option Nat); the instant stored at an
address is supplied separately by a heap (see timeValue). -/
structure Pod where
  ns : String
  name : String
  labels : List (String × String)
  deletionTimestamp : Option Nat
deriving DecidableEq, Repr

/-- Service object (core/v1): no handler is registered for it. -/
structure Service where
  ns : String
  name : String
  rest : Nat
deriving DecidableEq, Repr

/-- Node object (core/v1): no handler is registered for it. -/
structure Node where
  name : String
  rest : Nat
deriving DecidableEq, Repr

/-- The instant denoted by a deletion-timestamp pointer, given a heap
assigning an instant to every allocation address.  none models the nil
pointer. -/
def timeValue (heap : Nat → Int) : Option Nat → Option Int
  | none => none
  | some a => some (heap a)

/-- The dynamic content of an interface-typed handler argument
(obj interface in the Go source).  Delete payloads may be a
cache.DeletedFinalStateUnknown tombstone carrying a key and a further
interface-typed object, hence the recursive arm. -/
inductive Payload where
  | ingress (i : Ingress)
  | endpoints (e : Endpoints)
  | service (s : Service)
  | secret (s : Secret)
  | configMap (c : ConfigMap)
  | pod (p : Pod)
  | node (n : Node)
  | tombstone (key : String) (obj : Payload)
deriving DecidableEq, Repr

/-- Semantic signals of the ListerEvents sink interface.  notify models
Notify() (the GenericChange signal). -/
inductive Signal where
  | notify
  | updateSecret (key : String)
  | deleteSecret (key : String)
  | addConfigMap (cm : ConfigMap)
  | updateConfigMap (cm : ConfigMap)
deriving DecidableEq, Repr

/-- One recorder.Eventf call: object identity, event type, reason and
formatted message. -/
structure AuditEvent where
  objNs : String
  objName : String
  eventType : String
  reason : String
  message : String
deriving DecidableEq, Repr

/-- One observable side effect of a handler closure, in execution order:
a sink signal, an audit record, or an error log line. -/
inductive Effect where
  | signal (s : Signal)
  | audit (a : AuditEvent)
  | logError (msg : String)
deriving DecidableEq, Repr

/-- The sink signals of an effect trace, in order. -/
def signalsOf (out : List Effect) : List Signal :=
  out.filterMap fun e =>
    match e with
    | Effect.signal s => some s
    | _ => none

/-- The audit reasons of an effect trace, in order. -/
def auditReasons (out : List Effect) : List String :=
  out.filterMap fun e =>
    match e with
    | Effect.audit a => some a.reason
    | _ => none

/-- The error-log lines of an effect trace, in order. -/
def errorLogs (out : List Effect) : List String :=
  out.filterMap fun e =>
    match e with
    | Effect.logError m => some m
    | _ => none

def isAuditEffect : Effect → Bool
  | Effect.audit _ => true
  | _ => false

def isNotifyEffect : Effect → Bool
  | Effect.signal Signal.notify => true
  | _ => false

/-- Some audit record occurs strictly before the first Notify signal of
the trace. -/
def auditBeforeNotify (out : List Effect) : Bool :=
  (out.takeWhile fun e => !isNotifyEffect e).any isAuditEffect

/-- Some Notify signal occurs strictly before the first audit record of
the trace. -/
def notifyBeforeAudit (out : List Effect) : Bool :=
  (out.takeWhile fun e => !isAuditEffect e).any isNotifyEffect

/-- The Eventf call made by the ingress handlers:
recorder.Eventf(ing, api.EventTypeNormal, reason,
fmt.Sprintf("Ingress %s/%s", ing.Namespace, ing.Name)). -/
def ingressEvent (ing : Ingress) (reason : String) : AuditEvent :=
  { objNs := ing.ns
    objName := ing.name
    eventType := "Normal"
    reason := reason
    message := "Ingress " ++ ing.ns ++ "/" ++ ing.name }

/-- createIngressLister AddFunc: cast obj to Ingress (the informer only
delivers Ingress objects to add handlers, so the cast is taken as given);
if IsValidClass(ing) then Notify() then record the CREATE event. -/
def ingressAddFunc (isValidClass : Ingress → Bool) (ing : Ingress) : List Effect :=
  if isValidClass ing then
    [Effect.signal Signal.notify, Effect.audit (ingressEvent ing "CREATE")]
  else []

/-- createIngressLister UpdateFunc: return if reflect.DeepEqual(old, cur);
else recompute validity of both; both invalid, return; else record the
CREATE / DELETE / UPDATE event on cur, then Notify(). -/
def ingressUpdateFunc (isValidClass : Ingress → Bool) (old cur : Ingress) : List Effect :=
  if old = cur then []
  else
    let oldValid := isValidClass old
    let curValid := isValidClass cur
    if !oldValid && !curValid then []
    else
      (if !oldValid && curValid then [Effect.audit (ingressEvent cur "CREATE")]
       else if oldValid && !curValid then [Effect.audit (ingressEvent cur "DELETE")]
       else [Effect.audit (ingressEvent cur "UPDATE")])
      ++ [Effect.signal Signal.notify]

/-- The tail of createIngressLister DeleteFunc once an Ingress has been
recovered: if not IsValidClass, return; else record DELETE then Notify. -/
def ingressDeleteBody (isValidClass : Ingress → Bool) (ing : Ingress) : List Effect :=
  if !isValidClass ing then []
  else [Effect.audit (ingressEvent ing "DELETE"), Effect.signal Signal.notify]

/-- createIngressLister DeleteFunc: try the direct cast to Ingress; on
failure try the cast to cache.DeletedFinalStateUnknown and then the cast
of its Obj to Ingress; if either tombstone cast fails, log an error and
return without signalling. -/
def ingressDeleteFunc (isValidClass : Ingress → Bool) (obj : Payload) : List Effect :=
  match obj with
  | Payload.ingress ing => ingressDeleteBody isValidClass ing
  | Payload.tombstone _ inner =>
    match inner with
    | Payload.ingress ing => ingressDeleteBody isValidClass ing
    | _ => [Effect.logError "Tombstone contained object that is not an Ingress"]
  | _ => [Effect.logError "couldn't get object from tombstone"]

/-- The identity-recovery algorithm of the delete handlers, isolated:
the Ingress recovered from a delete payload, if any. -/
def recoverIngress : Payload → Option Ingress
  | Payload.ingress ing => some ing
  | Payload.tombstone _ (Payload.ingress ing) => some ing
  | _ => none

/-- createEndpointLister AddFunc: ignores its argument and calls
Notify(). -/
def endpointAddFunc (_obj : Payload) : List Effect :=
  [Effect.signal Signal.notify]

/-- createEndpointLister UpdateFunc: cast both to Endpoints and call
Notify() iff reflect.DeepEqual on the Subsets fields fails. -/
def endpointUpdateFunc (old cur : Endpoints) : List Effect :=
  if old.subsets ≠ cur.subsets then [Effect.signal Signal.notify]
  else []

/-- createEndpointLister DeleteFunc: ignores its argument and calls
Notify(). -/
def endpointDeleteFunc (_obj : Payload) : List Effect :=
  [Effect.signal Signal.notify]

/-- The secret key fmt.Sprintf("%v/%v", sec.Namespace, sec.Name). -/
def secretKey (sec : Secret) : String :=
  sec.ns ++ "/" ++ sec.name

/-- createSecretLister AddFunc: ignores its argument and calls
Notify(). -/
def secretAddFunc (_obj : Payload) : List Effect :=
  [Effect.signal Signal.notify]

/-- createSecretLister UpdateFunc: if not reflect.DeepEqual(old, cur),
cast cur to Secret and call UpdateSecret(namespace/name). -/
def secretUpdateFunc (old cur : Secret) : List Effect :=
  if old ≠ cur then [Effect.signal (Signal.updateSecret (secretKey cur))]
  else []

/-- The tail of createSecretLister DeleteFunc once a Secret has been
recovered: DeleteSecret(namespace/name), unconditionally. -/
def secretDeleteBody (sec : Secret) : List Effect :=
  [Effect.signal (Signal.deleteSecret (secretKey sec))]

/-- createSecretLister DeleteFunc: try the direct cast to Secret; on
failure try the tombstone and its contained object; if either tombstone
cast fails, log an error and return without signalling. -/
def secretDeleteFunc (obj : Payload) : List Effect :=
  match obj with
  | Payload.secret sec => secretDeleteBody sec
  | Payload.tombstone _ inner =>
    match inner with
    | Payload.secret sec => secretDeleteBody sec
    | _ => [Effect.logError "Tombstone contained object that is not a Secret"]
  | _ => [Effect.logError "couldn't get object from tombstone"]

/-- The Secret recovered from a delete payload, if any. -/
def recoverSecret : Payload → Option Secret
  | Payload.secret sec => some sec
  | Payload.tombstone _ (Payload.secret sec) => some sec
  | _ => none

/-- createConfigMapLister AddFunc: AddConfigMap(obj) unconditionally. -/
def configMapAddFunc (cm : ConfigMap) : List Effect :=
  [Effect.signal (Signal.addConfigMap cm)]

/-- createConfigMapLister UpdateFunc: if not reflect.DeepEqual(old, cur),
UpdateConfigMap(cur). -/
def configMapUpdateFunc (old cur : ConfigMap) : List Effect :=
  if old ≠ cur then [Effect.signal (Signal.updateConfigMap cur)]
  else []

/-- cache.ResourceEventHandlerFuncs dispatch: a nil member function makes
the corresponding OnAdd/OnUpdate/OnDelete a no-op. -/
def dispatchOpt {α : Type} (f : Option (α → List Effect)) (x : α) : List Effect :=
  match f with
  | some g => g x
  | none => []

/-- createConfigMapLister registers no DeleteFunc, so deletion dispatch
is the nil-member no-op. -/
def configMapOnDelete (obj : Payload) : List Effect :=
  dispatchOpt none obj

/-- createPodLister UpdateFunc: cast both to Pod and call Notify() iff
oldPod.DeletionTimestamp != curPod.DeletionTimestamp, a Go pointer
comparison (identity of the two pointers, nil equal only to nil). -/
def podUpdateFunc (old cur : Pod) : List Effect :=
  if old.deletionTimestamp ≠ cur.deletionTimestamp then
    [Effect.signal Signal.notify]
  else []

/-- createPodLister DeleteFunc: ignores its argument and calls
Notify(). -/
def podDeleteFunc (_obj : Payload) : List Effect :=
  [Effect.signal Signal.notify]

/-- createPodLister registers no AddFunc, so add dispatch is the
nil-member no-op. -/
def podOnAdd (obj : Payload) : List Effect :=
  dispatchOpt none obj

/-- api.NamespaceAll: the empty namespace selector. -/
def namespaceAll : String := ""

/-- The fields of the listers record that depend on the constructor
arguments under scrutiny: the stored sink (a Go interface value, hence
possibly nil, modelled as an Option) and the watch-scope wiring.
nodeLocalFake records that the node lister was bound to the local fake
clientset instead of the live cluster feed. -/
structure ListersState (σ : Type) where
  events : Option σ
  clusterWatch : Bool
  nodeLocalFake : Bool
deriving Repr

/-- createListers: computes clusterWatch from the namespace argument,
builds the record storing the given sink, registers the seven listers,
and binds the node lister to a fake local informer when scoped to a
single namespace.  The Go function performs no check on any argument and
has no error return: it always returns the constructed record. -/
def createListers {σ : Type} (events : Option σ) (watchNamespace : String) :
    ListersState σ :=
  let clusterWatch := watchNamespace == namespaceAll
  { events := events
    clusterWatch := clusterWatch
    nodeLocalFake := !clusterWatch }

/-- Whether the stop signal has fired by tick t (stopAt none: it never
fires). -/
def stopFired (stopAt : Option Nat) (t : Nat) : Bool :=
  match stopAt with
  | none => false
  | some s => s ≤ t

/-- Whether all seven informers report HasSynced at tick t. -/
def allSynced (hasSynced : Nat → Fin 7 → Bool) (t : Nat) : Bool :=
  (List.finRange 7).all fun i => hasSynced t i

/-- Modelled from the spec: cache.WaitForCacheSync is supplied by the
external watch/cache collaborator (client-go) and its body is not part
of this repository.  Per the SyncBarrier contract it polls the seven
HasSynced flags, returns Synced (some true) once all are true, and
returns Cancelled (some false) as soon as the stop signal fires first.
Polling is discretised into ticks; fuel bounds the modelled run, with
none meaning the run was cut short by the bound (no verdict). -/
def waitForCacheSync (stopAt : Option Nat) (hasSynced : Nat → Fin 7 → Bool) :
    Nat → Nat → Option Bool
  | 0, _ => none
  | fuel + 1, t =>
    if stopFired stopAt t then some false
    else if allSynced hasSynced t then some true
    else waitForCacheSync stopAt hasSynced fuel (t + 1)

/-- The diagnostic RunAsync hands to runtime.HandleError when the barrier
fails. -/
def syncErrMsg : String :=
  "initial cache sync has timed out or shutdown has requested"

/-- The observable outcome of RunAsync: its info log lines, its error
log lines, and the fact that it returns to its caller (runtime.HandleError
logs and returns; nothing in RunAsync terminates the process). -/
structure RunResult where
  infoLogs : List String
  errorLogs : List String
  returned : Bool
deriving DecidableEq, Repr

/-- RunAsync: starts the seven informers, logs the loading message,
awaits cache.WaitForCacheSync over the seven HasSynced flags from tick 0,
then logs success or hands the diagnostic to runtime.HandleError and
returns either way. -/
def runAsync (stopAt : Option Nat) (hasSynced : Nat → Fin 7 → Bool)
    (fuel : Nat) : RunResult :=
  let synced := waitForCacheSync stopAt hasSynced fuel 0 = some true
  if synced then
    { infoLogs := ["loading object cache...", "cache successfully synced"]
      errorLogs := []
      returned := true }
  else
    { infoLogs := ["loading object cache..."]
      errorLogs := [syncErrMsg]
      returned := true }

/-- C1: the Ingress Updated transition table.  Deeply equal old/new:
nothing.  Both invalid: nothing.  Invalid to valid: CREATE audit then one
GenericChange.  Valid to invalid: DELETE audit then one GenericChange.
Both valid: UPDATE audit then one GenericChange. -/
theorem c1_ingress_update_table (isValid : Ingress → Bool) (old cur : Ingress) :
    (old = cur → ingressUpdateFunc isValid old cur = []) ∧
    (old ≠ cur → isValid old = false → isValid cur = false →
      ingressUpdateFunc isValid old cur = []) ∧
    (old ≠ cur → isValid old = false → isValid cur = true →
      ingressUpdateFunc isValid old cur =
        [Effect.audit (ingressEvent cur "CREATE"), Effect.signal Signal.notify]) ∧
    (old ≠ cur → isValid old = true → isValid cur = false →
      ingressUpdateFunc isValid old cur =
        [Effect.audit (ingressEvent cur "DELETE"), Effect.signal Signal.notify]) ∧
    (old ≠ cur → isValid old = true → isValid cur = true →
      ingressUpdateFunc isValid old cur =
        [Effect.audit (ingressEvent cur "UPDATE"), Effect.signal Signal.notify]) := by
  refine ⟨?_, ?_, ?_, ?_, ?_⟩ <;> intro h <;>
    simp [ingressUpdateFunc, h] <;> intro h1 h2 <;> simp [h1, h2]

/-- C1 witness: a concrete invalid-to-valid update emits the CREATE audit
and one GenericChange. -/
theorem c1_witness :
    ingressUpdateFunc (fun i => decide (i.rest = 1))
        ⟨"default", "app", 0⟩ ⟨"default", "app", 1⟩ =
      [Effect.audit (ingressEvent ⟨"default", "app", 1⟩ "CREATE"),
       Effect.signal Signal.notify] :=
  (c1_ingress_update_table (fun i => decide (i.rest = 1))
      ⟨"default", "app", 0⟩ ⟨"default", "app", 1⟩).2.2.1
    (by decide) (by decide) (by decide)

/-- C2 counterexample: a concrete Secret Added event does emit a signal
to the sink, namely one GenericChange (Notify), contrary to the claim
that nothing is emitted. -/
theorem c2_counterexample :
    secretAddFunc (Payload.secret ⟨"default", "tls-cert", 0⟩) =
      [Effect.signal Signal.notify] ∧
    signalsOf (secretAddFunc (Payload.secret ⟨"default", "tls-cert", 0⟩)) ≠ [] := by
  decide

/-- C2 amended: for every Added event on a Secret, the handler ignores
the payload and emits exactly one GenericChange (Notify). -/
theorem c2_secret_add_notifies (obj : Payload) :
    secretAddFunc obj = [Effect.signal Signal.notify] := rfl

/-- C5 counterexample: with an absent sink, createListers still succeeds:
it returns a fully constructed listers record storing the absent sink;
no check is performed and no error exists. -/
theorem c5_counterexample :
    createListers (σ := Unit) none "default" =
      { events := none, clusterWatch := false, nodeLocalFake := true } := rfl

/-- C5 amended: createListers performs no presence check on the sink and
cannot fail: for every (possibly absent) sink and namespace it returns
the constructed record, storing the sink as given, with the watch scope
derived only from the namespace argument. -/
theorem c5_no_sink_check {σ : Type} (events : Option σ) (watchNamespace : String) :
    (createListers events watchNamespace).events = events ∧
    (createListers events watchNamespace).clusterWatch =
      (watchNamespace == namespaceAll) ∧
    (createListers events watchNamespace).nodeLocalFake =
      !(watchNamespace == namespaceAll) :=
  ⟨rfl, rfl, rfl⟩

/-- C6: Endpoints Updated emits exactly one GenericChange iff the Subsets
differ (metadata-only differences emit nothing), and Added and Deleted
emit exactly one GenericChange for every payload. -/
theorem c6_endpoint_classifier (old cur : Endpoints) (p q : Payload) :
    (old.subsets ≠ cur.subsets →
      endpointUpdateFunc old cur = [Effect.signal Signal.notify]) ∧
    (old.subsets = cur.subsets → endpointUpdateFunc old cur = []) ∧
    endpointAddFunc p = [Effect.signal Signal.notify] ∧
    endpointDeleteFunc q = [Effect.signal Signal.notify] := by
  refine ⟨fun h => ?_, fun h => ?_, rfl, rfl⟩ <;> simp [endpointUpdateFunc, h]

/-- C6 witness: concrete Endpoints pairs with differing subsets (signal)
and with identical subsets but differing metadata (no signal). -/
theorem c6_witness :
    endpointUpdateFunc ⟨"default", "svc", [1], 0⟩ ⟨"default", "svc", [2], 0⟩ =
      [Effect.signal Signal.notify] ∧
    endpointUpdateFunc ⟨"default", "svc", [1], 0⟩ ⟨"default", "svc", [1], 7⟩ = [] :=
  ⟨(c6_endpoint_classifier ⟨"default", "svc", [1], 0⟩ ⟨"default", "svc", [2], 0⟩
      (Payload.node ⟨"n", 0⟩) (Payload.node ⟨"n", 0⟩)).1 (by decide),
   (c6_endpoint_classifier ⟨"default", "svc", [1], 0⟩ ⟨"default", "svc", [1], 7⟩
      (Payload.node ⟨"n", 0⟩) (Payload.node ⟨"n", 0⟩)).2.1 (by decide)⟩

/-- C8: ConfigMap Added always emits exactly one ConfigMapAdded carrying
the object; Updated emits exactly one ConfigMapUpdated iff old and new
differ; Deleted dispatches to no handler and emits nothing. -/
theorem c8_configmap_classifier (cm old cur : ConfigMap) (p : Payload) :
    configMapAddFunc cm = [Effect.signal (Signal.addConfigMap cm)] ∧
    (old ≠ cur →
      configMapUpdateFunc old cur = [Effect.signal (Signal.updateConfigMap cur)]) ∧
    (old = cur → configMapUpdateFunc old cur = []) ∧
    configMapOnDelete p = [] := by
  refine ⟨rfl, fun h => ?_, fun h => ?_, rfl⟩ <;> simp [configMapUpdateFunc, h]

/-- C8 witness: a concrete differing pair emits ConfigMapUpdated, and an
identical pair emits nothing. -/
theorem c8_witness :
    configMapUpdateFunc ⟨"default", "cfg", 0⟩ ⟨"default", "cfg", 1⟩ =
      [Effect.signal (Signal.updateConfigMap ⟨"default", "cfg", 1⟩)] ∧
    configMapUpdateFunc ⟨"default", "cfg", 0⟩ ⟨"default", "cfg", 0⟩ = [] :=
  ⟨(c8_configmap_classifier ⟨"default", "cfg", 0⟩ ⟨"default", "cfg", 0⟩
      ⟨"default", "cfg", 1⟩ (Payload.node ⟨"n", 0⟩)).2.1 (by decide),
   (c8_configmap_classifier ⟨"default", "cfg", 0⟩ ⟨"default", "cfg", 0⟩
      ⟨"default", "cfg", 0⟩ (Payload.node ⟨"n", 0⟩)).2.2.1 rfl⟩

/-- C10: the Endpoints Added, Endpoints Deleted and Pod Deleted handlers
never inspect their payload: for every payload, tombstones and objects of
unexpected kinds included, each emits exactly one GenericChange and logs
no error; being total functions, they return normally on every input. -/
theorem c10_opaque_handlers (p q r : Payload) :
    endpointAddFunc p = [Effect.signal Signal.notify] ∧
    endpointDeleteFunc q = [Effect.signal Signal.notify] ∧
    podDeleteFunc r = [Effect.signal Signal.notify] ∧
    errorLogs (endpointAddFunc p) = [] ∧
    errorLogs (endpointDeleteFunc q) = [] ∧
    errorLogs (podDeleteFunc r) = [] :=
  ⟨rfl, rfl, rfl, rfl, rfl, rfl⟩

/-- C3 counterexample: on Ingress Added with a valid object, both an
audit event and a GenericChange are due, but the handler calls Notify()
before recorder.Eventf: the GenericChange precedes the audit record,
contrary to the claimed ordering. -/
theorem c3_counterexample :
    ingressAddFunc (fun _ => true) ⟨"default", "app", 0⟩ =
      [Effect.signal Signal.notify,
       Effect.audit (ingressEvent ⟨"default", "app", 0⟩ "CREATE")] ∧
    auditBeforeNotify (ingressAddFunc (fun _ => true) ⟨"default", "app", 0⟩) = false := by
  decide

/-- C3 amended: in the Ingress Updated non-suppressed cases and in the
Ingress Deleted case with a valid recovered object, the audit event is
recorded before GenericChange is signaled; in the Ingress Added case with
a valid object, GenericChange is signaled before the audit event. -/
theorem c3_audit_ordering (isValid : Ingress → Bool) (old cur add ing : Ingress)
    (p : Payload) :
    (old ≠ cur → (isValid old || isValid cur) = true →
      auditBeforeNotify (ingressUpdateFunc isValid old cur) = true) ∧
    (recoverIngress p = some ing → isValid ing = true →
      auditBeforeNotify (ingressDeleteFunc isValid p) = true) ∧
    (isValid add = true →
      notifyBeforeAudit (ingressAddFunc isValid add) = true) := by
  refine ⟨fun hne hv => ?_, fun hrec hv => ?_, fun hv => ?_⟩
  · rcases h1 : isValid old <;> rcases h2 : isValid cur <;>
      simp [h1, h2] at hv <;>
      simp [ingressUpdateFunc, hne, h1, h2, auditBeforeNotify,
        List.takeWhile, isNotifyEffect, isAuditEffect]
  · have hfun : ingressDeleteFunc isValid p = ingressDeleteBody isValid ing := by
      match p with
      | Payload.ingress i =>
        simp [recoverIngress] at hrec
        simp [ingressDeleteFunc, hrec]
      | Payload.tombstone k inner =>
        match inner with
        | Payload.ingress i =>
          simp [recoverIngress] at hrec
          simp [ingressDeleteFunc, hrec]
        | Payload.endpoints _ | Payload.service _ | Payload.secret _
        | Payload.configMap _ | Payload.pod _ | Payload.node _
        | Payload.tombstone _ _ =>
          simp [recoverIngress] at hrec
      | Payload.endpoints _ | Payload.service _ | Payload.secret _
      | Payload.configMap _ | Payload.pod _ | Payload.node _ =>
        simp [recoverIngress] at hrec
    rw [hfun]
    simp [ingressDeleteBody, hv, auditBeforeNotify, List.takeWhile,
      isNotifyEffect, isAuditEffect]
  · simp [ingressAddFunc, hv, notifyBeforeAudit, List.takeWhile,
      isNotifyEffect, isAuditEffect]

/-- C3 witness: concrete updated, deleted and added events exercising the
three ordering facts. -/
theorem c3_witness :
    auditBeforeNotify (ingressUpdateFunc (fun _ => true)
        ⟨"default", "app", 0⟩ ⟨"default", "app", 1⟩) = true ∧
    auditBeforeNotify (ingressDeleteFunc (fun _ => true)
        (Payload.ingress ⟨"default", "app", 0⟩)) = true ∧
    notifyBeforeAudit (ingressAddFunc (fun _ => true) ⟨"default", "app", 0⟩) = true :=
  ⟨(c3_audit_ordering (fun _ => true) ⟨"default", "app", 0⟩ ⟨"default", "app", 1⟩
      ⟨"default", "app", 0⟩ ⟨"default", "app", 0⟩
      (Payload.ingress ⟨"default", "app", 0⟩)).1 (by decide) rfl,
   (c3_audit_ordering (fun _ => true) ⟨"default", "app", 0⟩ ⟨"default", "app", 1⟩
      ⟨"default", "app", 0⟩ ⟨"default", "app", 0⟩
      (Payload.ingress ⟨"default", "app", 0⟩)).2.1 rfl rfl,
   (c3_audit_ordering (fun _ => true) ⟨"default", "app", 0⟩ ⟨"default", "app", 1⟩
      ⟨"default", "app", 0⟩ ⟨"default", "app", 0⟩
      (Payload.ingress ⟨"default", "app", 0⟩)).2.2 rfl⟩

/-- C4: the three-way branch of the Ingress and Secret delete handlers.
A payload of the expected kind is used as-is; a tombstone whose contained
object has the expected kind yields that contained object; otherwise
exactly one error is logged and no signal is forwarded (the handler, a
total function, returns normally, so subsequent events are unaffected). -/
theorem c4_delete_recovery (isValid : Ingress → Bool) (p : Payload) :
    (∀ ing, p = Payload.ingress ing →
      ingressDeleteFunc isValid p = ingressDeleteBody isValid ing) ∧
    (∀ k q ing, p = Payload.tombstone k q → q = Payload.ingress ing →
      ingressDeleteFunc isValid p = ingressDeleteBody isValid ing) ∧
    (recoverIngress p = none →
      signalsOf (ingressDeleteFunc isValid p) = [] ∧
      (errorLogs (ingressDeleteFunc isValid p)).length = 1) ∧
    (∀ sec, p = Payload.secret sec → secretDeleteFunc p = secretDeleteBody sec) ∧
    (∀ k q sec, p = Payload.tombstone k q → q = Payload.secret sec →
      secretDeleteFunc p = secretDeleteBody sec) ∧
    (recoverSecret p = none →
      signalsOf (secretDeleteFunc p) = [] ∧
      (errorLogs (secretDeleteFunc p)).length = 1) := by
  refine ⟨fun ing hp => ?_, fun k q ing hp hq => ?_, fun hrec => ?_,
    fun sec hp => ?_, fun k q sec hp hq => ?_, fun hrec => ?_⟩
  · subst hp; rfl
  · subst hp; subst hq; rfl
  · match p with
    | Payload.ingress i => simp [recoverIngress] at hrec
    | Payload.tombstone k inner =>
      match inner with
      | Payload.ingress i => simp [recoverIngress] at hrec
      | Payload.endpoints _ | Payload.service _ | Payload.secret _
      | Payload.configMap _ | Payload.pod _ | Payload.node _
      | Payload.tombstone _ _ =>
        simp [ingressDeleteFunc, signalsOf, errorLogs]
    | Payload.endpoints _ | Payload.service _ | Payload.secret _
    | Payload.configMap _ | Payload.pod _ | Payload.node _ =>
      simp [ingressDeleteFunc, signalsOf, errorLogs]
  · subst hp; rfl
  · subst hp; subst hq; rfl
  · match p with
    | Payload.secret s => simp [recoverSecret] at hrec
    | Payload.tombstone k inner =>
      match inner with
      | Payload.secret s => simp [recoverSecret] at hrec
      | Payload.endpoints _ | Payload.service _ | Payload.ingress _
      | Payload.configMap _ | Payload.pod _ | Payload.node _
      | Payload.tombstone _ _ =>
        simp [secretDeleteFunc, signalsOf, errorLogs]
    | Payload.endpoints _ | Payload.service _ | Payload.ingress _
    | Payload.configMap _ | Payload.pod _ | Payload.node _ =>
      simp [secretDeleteFunc, signalsOf, errorLogs]

/-- C4 witness: a wrong-kind payload is dropped with one error log and no
signal by the ingress handler, and a tombstone containing a Secret is
recovered by the secret handler. -/
theorem c4_witness :
    signalsOf (ingressDeleteFunc (fun _ => true)
      (Payload.pod ⟨"default", "web", [], none⟩)) = [] ∧
    (errorLogs (ingressDeleteFunc (fun _ => true)
      (Payload.pod ⟨"default", "web", [], none⟩))).length = 1 ∧
    secretDeleteFunc (Payload.tombstone "default/tls"
        (Payload.secret ⟨"default", "tls", 0⟩)) =
      secretDeleteBody ⟨"default", "tls", 0⟩ :=
  ⟨((c4_delete_recovery (fun _ => true)
      (Payload.pod ⟨"default", "web", [], none⟩)).2.2.1 rfl).1,
   ((c4_delete_recovery (fun _ => true)
      (Payload.pod ⟨"default", "web", [], none⟩)).2.2.1 rfl).2,
   (c4_delete_recovery (fun _ => true)
      (Payload.tombstone "default/tls" (Payload.secret ⟨"default", "tls", 0⟩))).2.2.2.2.1
     "default/tls" (Payload.secret ⟨"default", "tls", 0⟩) ⟨"default", "tls", 0⟩ rfl rfl⟩

/-- C7 counterexample: DeletionTimestamp is compared with Go pointer
inequality; two pods whose deletion timestamps are distinct references to
the same instant (value unchanged under the heap) still trigger one
GenericChange, contrary to the claimed value-based iff. -/
theorem c7_counterexample :
    timeValue (fun _ => 0) (some 0) = timeValue (fun _ => 0) (some 1) ∧
    podUpdateFunc ⟨"default", "web", [("app", "web")], some 0⟩
        ⟨"default", "web", [("app", "web")], some 1⟩ =
      [Effect.signal Signal.notify] := by
  decide

/-- C7 amended: Pod Updated emits exactly one GenericChange iff the two
deletion-timestamp references differ (in particular every change of the
denoted instant triggers it, and equal references — such as label churn
on an untimestamped pod — never do); Pod Deleted always emits exactly one
GenericChange; Pod Added dispatches to no handler and emits nothing. -/
theorem c7_pod_classifier (old cur : Pod) (heap : Nat → Int) (p q : Payload) :
    (old.deletionTimestamp = cur.deletionTimestamp → podUpdateFunc old cur = []) ∧
    (old.deletionTimestamp ≠ cur.deletionTimestamp →
      podUpdateFunc old cur = [Effect.signal Signal.notify]) ∧
    (timeValue heap old.deletionTimestamp ≠ timeValue heap cur.deletionTimestamp →
      podUpdateFunc old cur = [Effect.signal Signal.notify]) ∧
    podDeleteFunc p = [Effect.signal Signal.notify] ∧
    podOnAdd q = [] := by
  refine ⟨fun h => ?_, fun h => ?_, fun h => ?_, rfl, rfl⟩
  · simp [podUpdateFunc, h]
  · simp [podUpdateFunc, h]
  · have hne : old.deletionTimestamp ≠ cur.deletionTimestamp := by
      intro he; exact h (by rw [he])
    simp [podUpdateFunc, hne]

/-- C7 witness: a nil-to-set transition triggers one GenericChange, and a
metadata-only update with identical (nil) timestamps triggers nothing. -/
theorem c7_witness :
    podUpdateFunc ⟨"default", "web", [("a", "1")], none⟩
        ⟨"default", "web", [("a", "1")], some 0⟩ = [Effect.signal Signal.notify] ∧
    podUpdateFunc ⟨"default", "web", [("a", "1")], none⟩
        ⟨"default", "web", [("a", "2")], none⟩ = [] :=
  ⟨(c7_pod_classifier ⟨"default", "web", [("a", "1")], none⟩
      ⟨"default", "web", [("a", "1")], some 0⟩ (fun _ => 0)
      (Payload.node ⟨"n", 0⟩) (Payload.node ⟨"n", 0⟩)).2.1 (by decide),
   (c7_pod_classifier ⟨"default", "web", [("a", "1")], none⟩
      ⟨"default", "web", [("a", "2")], none⟩ (fun _ => 0)
      (Payload.node ⟨"n", 0⟩) (Payload.node ⟨"n", 0⟩)).1 rfl⟩

/-- If the modelled barrier returns Synced, then at some tick at or after
its start all seven flags were true and the stop signal had not fired. -/
theorem waitForCacheSync_synced_sound (stopAt : Option Nat)
    (hasSynced : Nat → Fin 7 → Bool) :
    ∀ fuel t, waitForCacheSync stopAt hasSynced fuel t = some true →
      ∃ u, t ≤ u ∧ allSynced hasSynced u = true ∧ stopFired stopAt u = false := by
  intro fuel
  induction fuel with
  | zero => intro t h; simp [waitForCacheSync] at h
  | succ n ih =>
    intro t h
    rw [waitForCacheSync] at h
    cases hsf : stopFired stopAt t with
    | true => simp [hsf] at h
    | false =>
      rw [hsf] at h
      simp only [Bool.false_eq_true, if_false] at h
      cases hall : allSynced hasSynced t with
      | true => exact ⟨t, Nat.le_refl t, hall, hsf⟩
      | false =>
        rw [hall] at h
        simp only [Bool.false_eq_true, if_false] at h
        obtain ⟨u, hu, h1, h2⟩ := ih (t + 1) h
        exact ⟨u, Nat.le_trans (Nat.le_succ t) hu, h1, h2⟩

/-- If the stop signal fires at tick s, the seven flags were never
simultaneously true up to s, and the run is long enough to reach s, the
modelled barrier returns Cancelled. -/
theorem waitForCacheSync_cancel_sound (s : Nat) (hasSynced : Nat → Fin 7 → Bool)
    (hnever : ∀ u, u ≤ s → allSynced hasSynced u = false) :
    ∀ fuel t, s - t < fuel →
      waitForCacheSync (some s) hasSynced fuel t = some false := by
  intro fuel
  induction fuel with
  | zero => intro t h; exact absurd h (Nat.not_lt_zero _)
  | succ n ih =>
    intro t h
    rw [waitForCacheSync]
    cases hsf : stopFired (some s) t with
    | true => simp
    | false =>
      have hnle : ¬ s ≤ t := by simpa [stopFired] using hsf
      have hts : t ≤ s := Nat.le_of_lt (Nat.lt_of_not_le hnle)
      simp only [Bool.false_eq_true, if_false]
      rw [hnever t hts]
      simp only [Bool.false_eq_true, if_false]
      exact ih (t + 1) (by omega)

/-- C9: the barrier returns Synced only when all seven flags have become
true (and the stop signal had not fired); if the stop signal fires while
the seven flags were never simultaneously true up to that point, it never
returns Synced, regardless of partial progress, and — when the run
reaches the firing tick — returns Cancelled; RunAsync always returns to
its caller, and whenever the barrier did not report Synced it logs the
sync-failure diagnostic. -/
theorem c9_sync_barrier (stopAt : Option Nat) (hasSynced : Nat → Fin 7 → Bool)
    (fuel t : Nat) :
    (waitForCacheSync stopAt hasSynced fuel t = some true →
      ∃ u, t ≤ u ∧ allSynced hasSynced u = true ∧ stopFired stopAt u = false) ∧
    (∀ s, stopAt = some s → (∀ u, u ≤ s → allSynced hasSynced u = false) →
      waitForCacheSync stopAt hasSynced fuel t ≠ some true) ∧
    (∀ s, stopAt = some s → (∀ u, u ≤ s → allSynced hasSynced u = false) →
      s - t < fuel → waitForCacheSync stopAt hasSynced fuel t = some false) ∧
    (runAsync stopAt hasSynced fuel).returned = true ∧
    (waitForCacheSync stopAt hasSynced fuel 0 ≠ some true →
      (runAsync stopAt hasSynced fuel).errorLogs = [syncErrMsg]) := by
  refine ⟨waitForCacheSync_synced_sound stopAt hasSynced fuel t,
    fun s hstop hnever heq => ?_, fun s hstop hnever hfuel => ?_, ?_, fun h => ?_⟩
  · obtain ⟨u, htu, hall, hsf⟩ :=
      waitForCacheSync_synced_sound stopAt hasSynced fuel t heq
    subst hstop
    simp only [stopFired, decide_eq_false_iff_not] at hsf
    rw [hnever u (Nat.le_of_lt (Nat.lt_of_not_le hsf))] at hall
    exact Bool.noConfusion hall
  · subst hstop
    exact waitForCacheSync_cancel_sound s hasSynced hnever fuel t hfuel
  · unfold runAsync
    dsimp only
    split <;> rfl
  · simp [runAsync, h]

/-- C9 witness: with six of seven flags ever true and the stop signal
firing at tick 2, the barrier reports Cancelled, never Synced, and
RunAsync logs the failure diagnostic. -/
theorem c9_witness :
    waitForCacheSync (some 2) (fun _ i => decide (i.val < 6)) 10 0 ≠ some true ∧
    waitForCacheSync (some 2) (fun _ i => decide (i.val < 6)) 10 0 = some false ∧
    (runAsync (some 2) (fun _ i => decide (i.val < 6)) 10).errorLogs = [syncErrMsg] :=
  ⟨(c9_sync_barrier (some 2) (fun _ i => decide (i.val < 6)) 10 0).2.1 2 rfl
      (fun _ _ => rfl),
   (c9_sync_barrier (some 2) (fun _ i => decide (i.val < 6)) 10 0).2.2.1 2 rfl
      (fun _ _ => rfl) (by decide),
   (c9_sync_barrier (some 2) (fun _ i => decide (i.val < 6)) 10 0).2.2.2.2
      ((c9_sync_barrier (some 2) (fun _ i => decide (i.val < 6)) 10 0).2.1 2 rfl
        (fun _ _ => rfl))⟩
